import Mathlib

/-!
Shallow embedding of the SSVC converter (ssvc_converter.py and the
per-record batch loop of main.py), together with proofs of the spec
claims about it.  Python strings are modelled as Lean `String`s; the
ASCII behaviour of Python `str.lower` / `str.capitalize` is modelled
with `Char.toLower` / `Char.toUpper` applied characterwise.  Functions
that can raise for string-typed arguments return `Except PyError`;
functions whose only raise is the `isinstance(..., str)` check (which
cannot fire for string arguments) are pure.
-/

deriving instance DecidableEq for Except

/-- Model of Python `str.lower` (ASCII case mapping, characterwise). -/
def pyLower (s : String) : String := ⟨s.data.map Char.toLower⟩

/-- Model of Python `str.capitalize` (ASCII): first character uppercased,
the rest lowercased. -/
def pyCapitalize (s : String) : String :=
  match s.data with
  | [] => ""
  | ch :: rest => ⟨ch.toUpper :: rest.map Char.toLower⟩

/-- Errors raised by the converter for string-typed inputs: `TypeError`
for non-textual values, `ValueError` for domain violations (including the
`ValueError` raised by the `MissionImpact(...)` enum lookup). -/
inductive PyError where
  | typeError (msg : String)
  | valueError (msg : String)
deriving DecidableEq

inductive ExploitationLevel where
  | ACTIVE
  | POC
  | NONE
deriving DecidableEq

inductive Automatable where
  | YES
  | NO
deriving DecidableEq

inductive TechnicalImpact where
  | TOTAL
  | PARTIAL
deriving DecidableEq

inductive MissionImpact where
  | HIGH
  | MEDIUM
  | LOW
deriving DecidableEq

inductive SsvcAction where
  | ACT
  | ATTEND
  | TRACK_STAR
  | TRACK
deriving DecidableEq

/-- The `.value` string of a `MissionImpact` member. -/
def missionValue : MissionImpact → String
  | .HIGH => "High"
  | .MEDIUM => "Medium"
  | .LOW => "Low"

def active_states : List String := ["active", "attacked", "high", "critical", "functional"]

def poc_states : List String := ["poc", "proof-of-concept", "available"]

/-- `SsvcConverter.get_exploitation_level` (ssvc_converter.py lines 31-42).
The `isinstance(..., str)` check cannot fire for a string argument, so the
function is pure. -/
def get_exploitation_level (exploit_maturity : String) : ExploitationLevel :=
  let em := pyLower exploit_maturity
  if em ∈ active_states then .ACTIVE
  else if em ∈ poc_states then .POC
  else .NONE

/-- `SsvcConverter.is_automatable` (ssvc_converter.py lines 44-53).
The `isinstance(..., str)` checks cannot fire for string arguments, so the
function is pure: no domain validation is performed. -/
def is_automatable (attack_complexity privileges_required user_interaction : String) : Automatable :=
  if pyLower attack_complexity = "l" ∧ pyLower privileges_required = "n" ∧
     pyLower user_interaction = "n" then .YES else .NO

def valid_values : List String := ["h", "l", "n"]

/-- The `ValueError` message of `get_technical_impact` for an invalid metric
(quotes of the original f-string omitted). -/
def invalidMetricMsg (name val : String) : String :=
  "Invalid value for metric " ++ name ++ ": " ++ val ++ ". Must be h, l, or n."

/-- `SsvcConverter.get_technical_impact` (ssvc_converter.py lines 55-70):
validates each of c, i, a (in that order) against {h, l, n}
case-insensitively, raising `ValueError` for the first invalid one, then
returns TOTAL iff all three are h. -/
def get_technical_impact (confidentiality integrity availability : String) :
    Except PyError TechnicalImpact :=
  if pyLower confidentiality ∉ valid_values then
    .error (.valueError (invalidMetricMsg "c" confidentiality))
  else if pyLower integrity ∉ valid_values then
    .error (.valueError (invalidMetricMsg "i" integrity))
  else if pyLower availability ∉ valid_values then
    .error (.valueError (invalidMetricMsg "a" availability))
  else
    .ok (if pyLower confidentiality = "h" ∧ pyLower integrity = "h" ∧
            pyLower availability = "h" then .TOTAL else .PARTIAL)

/-- `SsvcConverter.get_final_action` (ssvc_converter.py lines 72-92),
the nested-if decision tree, transcribed branch for branch. -/
def get_final_action (exploitation : ExploitationLevel) (automatable : Automatable)
    (tech_impact : TechnicalImpact) (mission_impact : MissionImpact) : SsvcAction :=
  if exploitation = .ACTIVE then
    if automatable = .YES then .ACT
    else
      if tech_impact = .PARTIAL then .ATTEND
      else if mission_impact = .HIGH ∨ mission_impact = .MEDIUM then .ACT else .ATTEND
  else if exploitation = .POC then
    if automatable = .YES then
      if tech_impact = .PARTIAL then .TRACK_STAR
      else if mission_impact = .HIGH ∨ mission_impact = .MEDIUM then .ATTEND else .TRACK_STAR
    else
      if tech_impact = .PARTIAL then .TRACK_STAR
      else if mission_impact = .HIGH then .ATTEND else .TRACK_STAR
  else
    if automatable = .YES then
      if tech_impact = .PARTIAL then .TRACK
      else if mission_impact = .HIGH then .ATTEND else .TRACK
    else
      if tech_impact = .PARTIAL then .TRACK
      else if mission_impact = .HIGH then .TRACK_STAR else .TRACK

/-- Mission-impact normalization, line 100 of ssvc_converter.py:
`MissionImpact(system_context.capitalize())`.  The Python enum lookup
raises `ValueError` when the capitalized string is not the value of any
member. -/
def normalize_mission_impact (system_context : String) : Except PyError MissionImpact :=
  if pyCapitalize system_context = "High" then .ok .HIGH
  else if pyCapitalize system_context = "Medium" then .ok .MEDIUM
  else if pyCapitalize system_context = "Low" then .ok .LOW
  else .error (.valueError (pyCapitalize system_context ++ " is not a valid MissionImpact"))

/-- The record returned by `get_ssvc_decision_path`: the dict with the four
classification values under "path" plus the final "action" (ssvc_converter.py
lines 104-112), modelled with the enum members instead of their `.value`
strings (the member-to-value map is injective). -/
structure DecisionPath where
  exploitation : ExploitationLevel
  automatable : Automatable
  tech_impact : TechnicalImpact
  mission_impact : MissionImpact
  action : SsvcAction
deriving DecidableEq

/-- `SsvcConverter.get_ssvc_decision_path` (ssvc_converter.py lines 94-112):
invokes the exploitation, automatability, technical-impact and
mission-impact steps in that order, propagating the first raised error, and
packages the results with `get_final_action`. -/
def get_ssvc_decision_path (ac pr ui c i a exploit_maturity system_context : String) :
    Except PyError DecisionPath :=
  let exploitation := get_exploitation_level exploit_maturity
  let automatable := is_automatable ac pr ui
  do
    let tech_impact ← get_technical_impact c i a
    let mission_impact ← normalize_mission_impact system_context
    pure { exploitation := exploitation, automatable := automatable,
           tech_impact := tech_impact, mission_impact := mission_impact,
           action := get_final_action exploitation automatable tech_impact mission_impact }

/-- One prepared row of the batch loop of main.py (lines 61-95): the CVSS
fields parsed out of the vector and the two upstream-mapped fields, each
`none` when missing or not a string (`NaN`), plus the two original columns
used in error messages. -/
structure Row where
  ac : Option String
  pr : Option String
  ui : Option String
  c : Option String
  i : Option String
  a : Option String
  exploit_maturity : Option String
  system_context : Option String
  nature_exploit : String
  criticite : String
deriving DecidableEq

/-- One entry of `results_list` in main.py: either the flattened successful
decision or the per-row error marker carrying the caught message. -/
inductive RowResult where
  | ok (dp : DecisionPath)
  | error (msg : String)
deriving DecidableEq

/-- The message of the `PyError` caught by the per-row handler. -/
def errText : PyError → String
  | .typeError msg => msg
  | .valueError msg => msg

/-- The body of the per-row loop of main.py (lines 62-95): the three
fail-fast checks, then the `TypeError`s the converter would raise for
non-string CVSS fields (in the order the converter reads them:
privileges_required, user_interaction, then confidentiality, integrity,
availability), then `get_ssvc_decision_path`; every raised error is caught
and turned into the marker string. -/
def process_row (r : Row) : RowResult :=
  match r.ac with
  | none => .error "Erreur de traitement: Données CVSS manquantes ou mal formatées"
  | some ac =>
    match r.exploit_maturity with
    | none => .error ("Erreur de traitement: Nature Exploit non reconnue: " ++ r.nature_exploit)
    | some em =>
      match r.system_context with
      | none => .error ("Erreur de traitement: Criticité non reconnue: " ++ r.criticite)
      | some sc =>
        match r.pr with
        | none => .error "Erreur de traitement: privileges_required must be a string."
        | some pr =>
          match r.ui with
          | none => .error "Erreur de traitement: user_interaction must be a string."
          | some ui =>
            match r.c with
            | none => .error "Erreur de traitement: confidentiality must be a string."
            | some c =>
              match r.i with
              | none => .error "Erreur de traitement: integrity must be a string."
              | some i =>
                match r.a with
                | none => .error "Erreur de traitement: availability must be a string."
                | some a =>
                  match get_ssvc_decision_path ac pr ui c i a em sc with
                  | .ok dp => .ok dp
                  | .error e => .error ("Erreur de traitement: " ++ errText e)

/-- The whole loop of main.py lines 61-95: one `results_list` entry per row,
in row order. -/
def main_results (rows : List Row) : List RowResult :=
  rows.map process_row

/-- A well-formed row with the given field values. -/
def mkRow (ac pr ui c i a em sc : String) : Row :=
  { ac := some ac, pr := some pr, ui := some ui, c := some c, i := some i,
    a := some a, exploit_maturity := some em, system_context := some sc,
    nature_exploit := "internet", criticite := "XX" }

/-- A five-row batch whose second row has a non-textual confidentiality
field and whose other four rows are well formed. -/
def exampleBatch : List Row :=
  [ mkRow "l" "n" "n" "h" "h" "h" "active" "high",
    { mkRow "l" "n" "n" "h" "h" "h" "active" "high" with c := none },
    mkRow "h" "n" "n" "h" "l" "n" "poc" "medium",
    mkRow "l" "l" "n" "h" "h" "h" "none" "low",
    mkRow "l" "n" "n" "h" "h" "h" "available" "medium" ]

/-- The 36-row decision table of section 4.5 of the spec, transcribed row
for row (the refinement target that `get_final_action` is compared with). -/
def decide_action_spec : ExploitationLevel → Automatable → TechnicalImpact → MissionImpact → SsvcAction
  | .ACTIVE, .YES, _, _ => .ACT
  | .ACTIVE, .NO, .PARTIAL, _ => .ATTEND
  | .ACTIVE, .NO, .TOTAL, .HIGH => .ACT
  | .ACTIVE, .NO, .TOTAL, .MEDIUM => .ACT
  | .ACTIVE, .NO, .TOTAL, .LOW => .ATTEND
  | .POC, .YES, .PARTIAL, _ => .TRACK_STAR
  | .POC, .YES, .TOTAL, .HIGH => .ATTEND
  | .POC, .YES, .TOTAL, .MEDIUM => .ATTEND
  | .POC, .YES, .TOTAL, .LOW => .TRACK_STAR
  | .POC, .NO, .PARTIAL, _ => .TRACK_STAR
  | .POC, .NO, .TOTAL, .HIGH => .ATTEND
  | .POC, .NO, .TOTAL, .MEDIUM => .TRACK_STAR
  | .POC, .NO, .TOTAL, .LOW => .TRACK_STAR
  | .NONE, .YES, .PARTIAL, _ => .TRACK
  | .NONE, .YES, .TOTAL, .HIGH => .ATTEND
  | .NONE, .YES, .TOTAL, .MEDIUM => .TRACK
  | .NONE, .YES, .TOTAL, .LOW => .TRACK
  | .NONE, .NO, .PARTIAL, _ => .TRACK
  | .NONE, .NO, .TOTAL, .HIGH => .TRACK_STAR
  | .NONE, .NO, .TOTAL, .MEDIUM => .TRACK
  | .NONE, .NO, .TOTAL, .LOW => .TRACK

theorem charToNat_inj {a b : Char} (h : a.toNat = b.toNat) : a = b := by
  have h2 := congrArg Char.ofNat h
  rwa [Char.ofNat_toNat, Char.ofNat_toNat] at h2

theorem charToNat_ofNat_valid (n : Nat) (h : n < 55296) : (Char.ofNat n).toNat = n := by
  rw [Char.ofNat, dif_pos (Or.inl h)]
  rfl

theorem toUpper_eq_iff_toLower_eq (c u l : Char) (hu1 : 65 ≤ u.toNat) (hu2 : u.toNat ≤ 90)
    (hl : l.toNat = u.toNat + 32) : (c.toUpper = u ↔ c.toLower = l) := by
  simp only [Char.toUpper, Char.toLower]
  split_ifs with h1 h2 h2
  · omega
  · constructor
    · intro h
      have h3 := congrArg Char.toNat h
      rw [charToNat_ofNat_valid _ (by omega)] at h3
      apply charToNat_inj
      omega
    · intro h
      have h3 := congrArg Char.toNat h
      apply charToNat_inj
      rw [charToNat_ofNat_valid _ (by omega)]
      omega
  · constructor
    · intro h
      have h3 := congrArg Char.toNat h
      apply charToNat_inj
      rw [charToNat_ofNat_valid _ (by omega)]
      omega
    · intro h
      have h3 := congrArg Char.toNat h
      rw [charToNat_ofNat_valid _ (by omega)] at h3
      apply charToNat_inj
      omega
  · constructor
    · intro h
      have h3 := congrArg Char.toNat h
      exfalso
      omega
    · intro h
      have h3 := congrArg Char.toNat h
      exfalso
      omega

theorem capitalize_eq_iff_lower_eq (s : String) (u l : Char) (tail : List Char)
    (hu1 : 65 ≤ u.toNat) (hu2 : u.toNat ≤ 90) (hl : l.toNat = u.toNat + 32) :
    (pyCapitalize s = ⟨u :: tail⟩ ↔ pyLower s = ⟨l :: tail⟩) := by
  obtain ⟨data⟩ := s
  cases data with
  | nil =>
      constructor <;> intro h <;> simp [pyCapitalize, pyLower, String.ext_iff] at h
  | cons c0 cs =>
      have e1 : pyCapitalize ⟨c0 :: cs⟩ = ⟨c0.toUpper :: cs.map Char.toLower⟩ := rfl
      have e2 : pyLower ⟨c0 :: cs⟩ = ⟨c0.toLower :: cs.map Char.toLower⟩ := rfl
      rw [e1, e2]
      simp only [String.ext_iff, List.cons.injEq]
      simp only [toUpper_eq_iff_toLower_eq c0 u l hu1 hu2 hl]

theorem pyCapitalize_eq_high_iff (s : String) : pyCapitalize s = "High" ↔ pyLower s = "high" :=
  capitalize_eq_iff_lower_eq s 'H' 'h' ['i', 'g', 'h'] (by decide) (by decide) (by decide)

theorem pyCapitalize_eq_medium_iff (s : String) : pyCapitalize s = "Medium" ↔ pyLower s = "medium" :=
  capitalize_eq_iff_lower_eq s 'M' 'm' ['e', 'd', 'i', 'u', 'm'] (by decide) (by decide) (by decide)

theorem pyCapitalize_eq_low_iff (s : String) : pyCapitalize s = "Low" ↔ pyLower s = "low" :=
  capitalize_eq_iff_lower_eq s 'L' 'l' ['o', 'w'] (by decide) (by decide) (by decide)

/-- C1: over the full 3x2x2x3 input space, `get_final_action` is total and
agrees cell by cell with the 36-row decision table of section 4.5 of the
spec. -/
theorem get_final_action_matches_spec_table :
    ∀ (e : ExploitationLevel) (au : Automatable) (t : TechnicalImpact) (m : MissionImpact),
      get_final_action e au t m = decide_action_spec e au t m := by
  intro e au t m
  cases e <;> cases au <;> cases t <;> cases m <;> rfl

/-- C2: `is_automatable` returns YES exactly when, case-insensitively,
attack_complexity is l, privileges_required is n and user_interaction is n,
and returns NO in every other case (strict conjunction). -/
theorem is_automatable_yes_iff_strict_conjunction (ac pr ui : String) :
    (is_automatable ac pr ui = .YES ↔
      (pyLower ac = "l" ∧ pyLower pr = "n" ∧ pyLower ui = "n")) ∧
    (¬(pyLower ac = "l" ∧ pyLower pr = "n" ∧ pyLower ui = "n") →
      is_automatable ac pr ui = .NO) := by
  unfold is_automatable
  by_cases h : pyLower ac = "l" ∧ pyLower pr = "n" ∧ pyLower ui = "n"
  · simp [h]
  · simp [h]

/-- Witness for C2: the all-match triple yields YES and a single differing
field yields NO. -/
theorem is_automatable_yes_iff_strict_conjunction_witness :
    is_automatable "L" "N" "N" = .YES ∧ is_automatable "H" "N" "N" = .NO :=
  ⟨(is_automatable_yes_iff_strict_conjunction "L" "N" "N").1.mpr (by decide),
   (is_automatable_yes_iff_strict_conjunction "H" "N" "N").2 (by decide)⟩

/-- C9: for string arguments `is_automatable` never fails: it is total into
the two-valued Automatable (no error case in its type, mirroring the absence
of any domain validation in the source), and any triple outside the
all-match case, including strings outside the CVSS metric domain, yields NO
rather than an error. -/
theorem is_automatable_never_fails (ac pr ui : String) :
    (is_automatable ac pr ui = .YES ∨ is_automatable ac pr ui = .NO) ∧
    (¬(pyLower ac = "l" ∧ pyLower pr = "n" ∧ pyLower ui = "n") →
      is_automatable ac pr ui = .NO) := by
  unfold is_automatable
  by_cases h : pyLower ac = "l" ∧ pyLower pr = "n" ∧ pyLower ui = "n"
  · simp [h]
  · simp [h]

/-- Witness for C9: the out-of-domain strings x and the empty string are
accepted and yield NO. -/
theorem is_automatable_never_fails_witness :
    is_automatable "x" "" "x" = .NO :=
  (is_automatable_never_fails "x" "" "x").2 (by decide)

/-- C5: `get_exploitation_level` returns ACTIVE exactly when the lowercased
input is in the active set, POC exactly when it is in the PoC set, and NONE
exactly when it is in neither set (the unrecognized-token default is a
successful classification, not an error). -/
theorem get_exploitation_level_classification (s : String) :
    (get_exploitation_level s = .ACTIVE ↔ pyLower s ∈ active_states) ∧
    (get_exploitation_level s = .POC ↔ pyLower s ∈ poc_states) ∧
    (get_exploitation_level s = .NONE ↔
      (pyLower s ∉ active_states ∧ pyLower s ∉ poc_states)) := by
  have hdisj : ∀ x : String, x ∈ active_states → x ∉ poc_states := by
    intro x hx
    fin_cases hx <;> decide
  unfold get_exploitation_level
  by_cases ha : pyLower s ∈ active_states
  · have hnp := hdisj _ ha
    simp [ha, hnp]
  · by_cases hp : pyLower s ∈ poc_states
    · simp [ha, hp]
    · simp [ha, hp]

theorem except_bind_ok {ε α β : Type} (x : α) (f : α → Except ε β) :
    (Except.ok x >>= f) = f x := rfl

theorem except_bind_error {ε α β : Type} (e : ε) (f : α → Except ε β) :
    ((Except.error e : Except ε α) >>= f) = .error e := rfl

/-- C3: `get_technical_impact` fails exactly when at least one of the three
arguments is, case-insensitively, outside the set of h, l, n, and the
error is the ValueError naming the first offending field in the order
c, i, a. -/
theorem get_technical_impact_error_iff_invalid_metric (c i a : String) :
    ((∃ e, get_technical_impact c i a = .error e) ↔
      (pyLower c ∉ valid_values ∨ pyLower i ∉ valid_values ∨ pyLower a ∉ valid_values)) ∧
    (pyLower c ∉ valid_values →
      get_technical_impact c i a = .error (.valueError (invalidMetricMsg "c" c))) ∧
    (pyLower c ∈ valid_values → pyLower i ∉ valid_values →
      get_technical_impact c i a = .error (.valueError (invalidMetricMsg "i" i))) ∧
    (pyLower c ∈ valid_values → pyLower i ∈ valid_values → pyLower a ∉ valid_values →
      get_technical_impact c i a = .error (.valueError (invalidMetricMsg "a" a))) := by
  unfold get_technical_impact
  by_cases hc : pyLower c ∈ valid_values <;> by_cases hi : pyLower i ∈ valid_values <;>
    by_cases ha : pyLower a ∈ valid_values <;> simp [hc, hi, ha]

/-- Witness for C3: each position of the offending field produces the
ValueError naming that field. -/
theorem get_technical_impact_error_iff_invalid_metric_witness :
    get_technical_impact "x" "H" "H" = .error (.valueError (invalidMetricMsg "c" "x")) ∧
    get_technical_impact "H" "x" "H" = .error (.valueError (invalidMetricMsg "i" "x")) ∧
    get_technical_impact "H" "H" "x" = .error (.valueError (invalidMetricMsg "a" "x")) :=
  ⟨(get_technical_impact_error_iff_invalid_metric "x" "H" "H").2.1 (by decide),
   (get_technical_impact_error_iff_invalid_metric "H" "x" "H").2.2.1 (by decide) (by decide),
   (get_technical_impact_error_iff_invalid_metric "H" "H" "x").2.2.2
     (by decide) (by decide) (by decide)⟩

/-- C4: on arguments that are all, case-insensitively, in the set of
h, l, n, `get_technical_impact` returns TOTAL exactly when all three are h
case-insensitively, and PARTIAL otherwise. -/
theorem get_technical_impact_total_iff_all_high (c i a : String)
    (hc : pyLower c ∈ valid_values) (hi : pyLower i ∈ valid_values)
    (ha : pyLower a ∈ valid_values) :
    (get_technical_impact c i a = .ok .TOTAL ↔
      (pyLower c = "h" ∧ pyLower i = "h" ∧ pyLower a = "h")) ∧
    (¬(pyLower c = "h" ∧ pyLower i = "h" ∧ pyLower a = "h") →
      get_technical_impact c i a = .ok .PARTIAL) := by
  unfold get_technical_impact
  rw [if_neg (not_not_intro hc), if_neg (not_not_intro hi), if_neg (not_not_intro ha)]
  by_cases h : pyLower c = "h" ∧ pyLower i = "h" ∧ pyLower a = "h" <;> simp [h]

/-- Witness for C4: all-H gives TOTAL, one non-H field gives PARTIAL. -/
theorem get_technical_impact_total_iff_all_high_witness :
    get_technical_impact "H" "H" "H" = .ok .TOTAL ∧
    get_technical_impact "H" "H" "L" = .ok .PARTIAL :=
  ⟨(get_technical_impact_total_iff_all_high "H" "H" "H"
      (by decide) (by decide) (by decide)).1.mpr (by decide),
   (get_technical_impact_total_iff_all_high "H" "H" "L"
      (by decide) (by decide) (by decide)).2 (by decide)⟩

/-- C6: mission-impact normalization succeeds with member m exactly when the
capitalized input equals the value of m (one of High, Medium, Low), and when
the capitalized input matches no member it fails with the ValueError of the
enum lookup. -/
theorem normalize_mission_impact_capitalize_matching (s : String) (m : MissionImpact) :
    (normalize_mission_impact s = .ok m ↔ pyCapitalize s = missionValue m) ∧
    ((∀ m2 : MissionImpact, pyCapitalize s ≠ missionValue m2) →
      normalize_mission_impact s =
        .error (.valueError (pyCapitalize s ++ " is not a valid MissionImpact"))) := by
  unfold normalize_mission_impact
  by_cases h1 : pyCapitalize s = "High"
  · refine ⟨?_, fun hall => absurd h1 (hall .HIGH)⟩
    cases m <;> simp [h1, missionValue]
  · by_cases h2 : pyCapitalize s = "Medium"
    · refine ⟨?_, fun hall => absurd h2 (hall .MEDIUM)⟩
      cases m <;> simp [h1, h2, missionValue]
    · by_cases h3 : pyCapitalize s = "Low"
      · refine ⟨?_, fun hall => absurd h3 (hall .LOW)⟩
        cases m <;> simp [h1, h2, h3, missionValue]
      · refine ⟨?_, fun hall => by simp [h1, h2, h3]⟩
        cases m <;> simp [h1, h2, h3, missionValue]

/-- Witness for C6: urgent capitalizes to Urgent, matches no member, and
fails with the enum-lookup ValueError. -/
theorem normalize_mission_impact_capitalize_matching_witness :
    normalize_mission_impact "urgent" =
      .error (.valueError (pyCapitalize "urgent" ++ " is not a valid MissionImpact")) :=
  (normalize_mission_impact_capitalize_matching "urgent" .HIGH).2
    (fun m2 => by cases m2 <;> decide)

/-- C10: mission-impact normalization is fully case-insensitive: it succeeds
exactly when the lowercased input is high, medium or low, recording the
corresponding canonical member, and fails with the enum-lookup ValueError
otherwise. -/
theorem normalize_mission_impact_case_insensitive (s : String) :
    normalize_mission_impact s =
      (if pyLower s = "high" then .ok .HIGH
       else if pyLower s = "medium" then .ok .MEDIUM
       else if pyLower s = "low" then .ok .LOW
       else .error (.valueError (pyCapitalize s ++ " is not a valid MissionImpact"))) := by
  unfold normalize_mission_impact
  simp only [pyCapitalize_eq_high_iff, pyCapitalize_eq_medium_iff, pyCapitalize_eq_low_iff]

/-- C7: `get_ssvc_decision_path` fails exactly when a sub-step fails,
propagating the error of the first failing sub-step in invocation order
(technical impact before mission impact; the exploitation and automatability
steps cannot fail on strings), constructs no DecisionPath on failure, and on
success packages the four classifications with the action computed by
`get_final_action` from them. -/
theorem get_ssvc_decision_path_characterization (ac pr ui c i a em sc : String) :
    (get_ssvc_decision_path ac pr ui c i a em sc =
      match get_technical_impact c i a with
      | .error e => .error e
      | .ok t =>
        match normalize_mission_impact sc with
        | .error e => .error e
        | .ok m =>
          .ok { exploitation := get_exploitation_level em,
                automatable := is_automatable ac pr ui,
                tech_impact := t, mission_impact := m,
                action := get_final_action (get_exploitation_level em)
                  (is_automatable ac pr ui) t m }) ∧
    ((∃ d, get_ssvc_decision_path ac pr ui c i a em sc = .ok d) ↔
      ((∃ t, get_technical_impact c i a = .ok t) ∧
       (∃ m, normalize_mission_impact sc = .ok m))) := by
  cases hT : get_technical_impact c i a <;> cases hM : normalize_mission_impact sc <;>
    simp [get_ssvc_decision_path, hT, hM, except_bind_ok, except_bind_error]

/-- C8: the batch loop produces exactly one result per record in record
order, each depending only on its own record, and on the concrete
five-record batch whose second record has a non-textual confidentiality
field it yields four successful DecisionPaths and one error marker carrying
the caught cause, in original order. -/
theorem main_results_per_record :
    (∀ rows : List Row,
      (main_results rows).length = rows.length ∧
      ∀ k : Nat, (main_results rows)[k]? = Option.map process_row rows[k]?) ∧
    main_results exampleBatch =
      [ .ok ⟨.ACTIVE, .YES, .TOTAL, .HIGH, .ACT⟩,
        .error "Erreur de traitement: confidentiality must be a string.",
        .ok ⟨.POC, .NO, .PARTIAL, .MEDIUM, .TRACK_STAR⟩,
        .ok ⟨.NONE, .NO, .TOTAL, .LOW, .TRACK⟩,
        .ok ⟨.POC, .YES, .TOTAL, .MEDIUM, .ATTEND⟩ ] := by
  refine ⟨fun rows => ⟨?_, ?_⟩, ?_⟩
  · simp [main_results]
  · intro k
    simp [main_results]
  · decide
